import Mathlib

/-!
Shallow embedding of the Verity backend (src/backend/src) interview access
and tenancy subsystem: the relational rows of src/backend/src/models.py, the
auth resolution of src/backend/src/auth.py and the endpoint handlers of
src/backend/src/api/main.py, with the relational store as an explicit state
record and HTTP failures as an explicit error value.
-/

namespace Verity

/-- An HTTP error as raised by fastapi.HTTPException(status_code, detail). -/
structure ApiError where
  status : Nat
  detail : String
deriving DecidableEq, Repr

/-- models.py Organization row (columns the handlers read or write). -/
structure Organization where
  id : Nat
  name : String
  display_name : String
  description : Option String
  deleted_at : Option Int
deriving DecidableEq, Repr

/-- models.py User row (organization member). -/
structure User where
  id : Nat
  firebase_uid : String
  email : String
  role : String
  organization_id : Nat
deriving DecidableEq, Repr

/-- models.py Study row. -/
structure Study where
  id : Nat
  title : String
  description : Option String
  slug : String
  organization_id : Nat
deriving DecidableEq, Repr

/-- models.py InterviewGuide row (study_id is unique). -/
structure InterviewGuide where
  id : Nat
  study_id : Nat
  content_md : String
deriving DecidableEq, Repr

/-- models.py Interview row. access_token carries a unique constraint
(models.py line 94); status is the string "pending" or "completed". -/
structure Interview where
  id : Nat
  study_id : Nat
  access_token : String
  interviewee_firebase_uid : Option String
  status : String
  created_at : Int
  completed_at : Option Int
  expires_at : Option Int
  external_participant_id : Option String
  platform_source : Option String
  transcript_url : Option String
  recording_url : Option String
  notes : Option String
deriving DecidableEq, Repr

/-- models.py AudioRecording row (interview_id is unique: one per interview). -/
structure AudioRecording where
  id : Nat
  interview_id : Nat
  uri : String
  duration_ms : Option Int
  mime_type : Option String
  sample_rate_hz : Option Int
  file_size_bytes : Option Int
deriving DecidableEq, Repr

/-- models.py Transcript row (interview_id is unique: one per interview). -/
structure Transcript where
  id : Nat
  interview_id : Nat
  language : String
  source : String
  full_text : String
deriving DecidableEq, Repr

/-- models.py TranscriptSegment row. -/
structure TranscriptSegment where
  id : Nat
  transcript_id : Nat
  start_ms : Int
  end_ms : Int
  text : String
  sequence : Nat
deriving DecidableEq, Repr

/-- The relational store: one list per table, in row-insertion order
(List.find? plays the role of query(...).filter(...).first()). -/
structure DB where
  organizations : List Organization
  users : List User
  studies : List Study
  guides : List InterviewGuide
  interviews : List Interview
  recordings : List AudioRecording
  transcripts : List Transcript
  segments : List TranscriptSegment
deriving DecidableEq, Repr

def DB.empty : DB := ⟨[], [], [], [], [], [], [], []⟩

/-- Autoincrement primary key for a new Interview row: strictly above every
existing id (the relational store assigns fresh ids). -/
def freshInterviewId (db : DB) : Nat :=
  (db.interviews.map (fun i => i.id)).foldr max 0 + 1

def freshOrganizationId (db : DB) : Nat :=
  (db.organizations.map (fun o => o.id)).foldr max 0 + 1

def freshUserId (db : DB) : Nat :=
  (db.users.map (fun u => u.id)).foldr max 0 + 1

def freshStudyId (db : DB) : Nat :=
  (db.studies.map (fun s => s.id)).foldr max 0 + 1

def freshGuideId (db : DB) : Nat :=
  (db.guides.map (fun g => g.id)).foldr max 0 + 1

def freshRecordingId (db : DB) : Nat :=
  (db.recordings.map (fun r => r.id)).foldr max 0 + 1

def freshTranscriptId (db : DB) : Nat :=
  (db.transcripts.map (fun t => t.id)).foldr max 0 + 1

def freshSegmentId (db : DB) : Nat :=
  (db.segments.map (fun s => s.id)).foldr max 0 + 1

-- Auth layer (src/backend/src/auth.py)

/-- auth.py AuthUser: the result of token verification. -/
structure AuthUser where
  firebase_uid : String
  tenant_type : String
  email : Option String
  is_super_admin : Bool
deriving DecidableEq, Repr

/-- auth.py OrgUser: organization context resolved for an org-tenant caller. -/
structure OrgUser where
  firebase_uid : String
  email : String
  role : String
  organization_id : Nat
  organization_name : String
deriving DecidableEq, Repr

/-- auth.py get_org_user_impl (lines 113-154): super admins are resolved,
without a User row, to the first Organization row of the table
(db.query(Organization).first()); regular users are looked up by
firebase_uid, failing 403 when no User row backs the token. -/
def get_org_user_impl (user : AuthUser) (db : DB) : Except ApiError OrgUser :=
  if user.is_super_admin then
    match db.organizations.head? with
    | some o =>
        .ok ⟨user.firebase_uid, user.email.getD "superadmin@platform.com",
             "super_admin", o.id, o.name⟩
    | none => .error ⟨404, "No organizations exist"⟩
  else
    match db.users.find? (fun u => u.firebase_uid == user.firebase_uid) with
    | none => .error ⟨403, "User not associated with any organization"⟩
    | some u =>
        .ok ⟨u.firebase_uid, u.email, u.role, u.organization_id,
             ((db.organizations.find? (fun o => o.id == u.organization_id)).map
               (fun o => o.name)).getD ""⟩

-- Public interview endpoints (main.py)

/-- The payload assembled by GET /api/interview/{access_token}. -/
structure PublicInterviewView where
  interview_id : Nat
  study_id : Nat
  access_token : String
  status : String
  study_title : String
  guide_content_md : String
deriving DecidableEq, Repr

/-- main.py get_interview_public (lines 806-840): one 404 with the combined
detail for both a missing token and a completed interview; expires_at is
never consulted. -/
def get_interview_public (db : DB) (access_token : String) :
    Except ApiError PublicInterviewView :=
  match db.interviews.find? (fun i => i.access_token == access_token) with
  | none => .error ⟨404, "Interview not found or already completed"⟩
  | some interview =>
    if interview.status == "completed" then
      .error ⟨404, "Interview not found or already completed"⟩
    else
      match db.studies.find? (fun s => s.id == interview.study_id) with
      | none => .error ⟨404, "Study not found"⟩
      | some study =>
        let guide := db.guides.find? (fun g => g.study_id == interview.study_id)
        .ok ⟨interview.id, interview.study_id, interview.access_token,
             interview.status, study.title,
             (match guide with
              | some g => g.content_md
              | none => "No guide available")⟩

/-- schemas.py InterviewCompleteRequest. -/
structure InterviewCompleteRequest where
  transcript_url : String
  recording_url : Option String
  notes : Option String
deriving DecidableEq, Repr

/-- The row mutation performed by main.py complete_interview lines 862-866 on
the interview holding the token (the lookup key is the unique access_token,
so exactly the looked-up row is touched). -/
def completeUpdate (completion_data : InterviewCompleteRequest) (now : Int)
    (access_token : String) (j : Interview) : Interview :=
  if j.access_token == access_token then
    { j with
      status := "completed"
      completed_at := some now
      transcript_url := some completion_data.transcript_url
      recording_url := completion_data.recording_url
      notes := completion_data.notes }
  else j

/-- main.py complete_interview (lines 843-870): the interview is looked up by
access token; a second completion is rejected with 400 before any write. -/
def complete_interview (db : DB) (access_token : String)
    (completion_data : InterviewCompleteRequest) (now : Int) :
    Except ApiError String × DB :=
  match db.interviews.find? (fun i => i.access_token == access_token) with
  | none => (.error ⟨404, "Interview not found"⟩, db)
  | some interview =>
    if interview.status == "completed" then
      (.error ⟨400, "Interview already completed"⟩, db)
    else
      (.ok "Interview completed successfully",
       { db with interviews :=
           db.interviews.map (completeUpdate completion_data now access_token) })

/-- The row mutation performed by main.py claim_interview line 890 on the
interview holding the token. -/
def claimUpdate (firebase_uid access_token : String) (j : Interview) : Interview :=
  if j.access_token == access_token then
    { j with interviewee_firebase_uid := some firebase_uid }
  else j

/-- main.py claim_interview (lines 873-893), with its
require_interviewee_user dependency (auth.py lines 106-110) inlined:
claiming an already-claimed interview is rejected with 400. -/
def claim_interview (db : DB) (access_token : String) (current_user : AuthUser) :
    Except ApiError String × DB :=
  if current_user.tenant_type != "interviewee" then
    (.error ⟨403, "Interviewee user access required"⟩, db)
  else
    match db.interviews.find? (fun i => i.access_token == access_token) with
    | none => (.error ⟨404, "Interview not found"⟩, db)
    | some interview =>
      if interview.interviewee_firebase_uid != none then
        (.error ⟨400, "Interview already claimed"⟩, db)
      else
        (.ok "Interview claimed successfully",
         { db with interviews :=
             db.interviews.map (claimUpdate current_user.firebase_uid access_token) })

-- Study endpoints (main.py)

/-- The fields of schemas.py StudyResponse that carry study data. -/
structure StudyResponse where
  study_id : Nat
  title : String
  description : Option String
  org_id : Nat
deriving DecidableEq, Repr

/-- main.py get_study (lines 504-527): the query filters by both the study id
and the caller context organization_id; a miss on either is the same 404. -/
def get_study (study_id : Nat) (org_user : OrgUser) (db : DB) :
    Except ApiError StudyResponse :=
  match db.studies.find? (fun s =>
      s.id == study_id && s.organization_id == org_user.organization_id) with
  | none => .error ⟨404, "Study not found"⟩
  | some study => .ok ⟨study.id, study.title, study.description, study.organization_id⟩

/-- The full GET /api/studies/{study_id} pipeline: require_organization_user
(auth.py lines 99-103), then get_org_user_impl, then get_study. -/
def get_study_endpoint (user : AuthUser) (db : DB) (study_id : Nat) :
    Except ApiError StudyResponse :=
  if user.tenant_type != "organization" then
    .error ⟨403, "Organization user access required"⟩
  else
    match get_org_user_impl user db with
    | .error e => .error e
    | .ok org_user => get_study study_id org_user db

/-- main.py get_interview (lines 761-800): study ownership check, then the
interview looked up within that study. Carries the interview row's data. -/
def get_interview (study_id interview_id : Nat) (org_user : OrgUser) (db : DB) :
    Except ApiError Interview :=
  match db.studies.find? (fun s =>
      s.id == study_id && s.organization_id == org_user.organization_id) with
  | none => .error ⟨404, "Study not found"⟩
  | some _ =>
    match db.interviews.find? (fun i =>
        i.id == interview_id && i.study_id == study_id) with
    | none => .error ⟨404, "Interview not found"⟩
    | some interview => .ok interview

/-- The full GET /api/studies/{study_id}/interviews/{interview_id} pipeline. -/
def get_interview_endpoint (user : AuthUser) (db : DB)
    (study_id interview_id : Nat) : Except ApiError Interview :=
  if user.tenant_type != "organization" then
    .error ⟨403, "Organization user access required"⟩
  else
    match get_org_user_impl user db with
    | .error e => .error e
    | .ok org_user => get_interview study_id interview_id org_user db

/-- main.py generate_interview_link (lines 668-719): study ownership check,
then an Interview row inserted with the freshly generated token and
status "pending". The access_token unique constraint (models.py line 94)
makes the commit fail, leaving the store unchanged, if the token collides. -/
def generate_interview_link (study_id : Nat) (org_user : OrgUser) (db : DB)
    (access_token : String) (now : Int) : Except ApiError Interview × DB :=
  match db.studies.find? (fun s =>
      s.id == study_id && s.organization_id == org_user.organization_id) with
  | none => (.error ⟨404, "Study not found"⟩, db)
  | some _ =>
    if db.interviews.any (fun i => i.access_token == access_token) then
      (.error ⟨500, "IntegrityError: duplicate access_token"⟩, db)
    else
      let interview : Interview :=
        ⟨freshInterviewId db, study_id, access_token, none, "pending", now,
         none, none, none, none, none, none, none⟩
      (.ok interview, { db with interviews := db.interviews ++ [interview] })

-- Organization creation (main.py create_organization)

/-- schemas.py OrganizationCreate. -/
structure OrganizationCreate where
  name : String
  display_name : String
  description : Option String
  owner_email : String
deriving DecidableEq, Repr

/-- The outcome of the external Firebase owner-provisioning calls plus the
owner User commit in main.py lines 169-196: ok carries the new Firebase uid,
error carries the exception message. -/
def OwnerCreationOutcome := Except String String

/-- main.py create_organization (lines 146-218). Phase one inserts the
Organization row and COMMITS it (line 160); the unique constraint on name
turns a duplicate into a 400 with the store unchanged. Phase two provisions
the owner; on any exception the handler calls db.rollback() (line 217),
which only discards the uncommitted owner insert — the Organization row
committed in phase one stays in the store. -/
def create_organization (db : DB) (org_data : OrganizationCreate)
    (owner_outcome : OwnerCreationOutcome) : Except ApiError (Nat × Nat) × DB :=
  if db.organizations.any (fun o => o.name == org_data.name) then
    (.error ⟨400, "Organization with name \x27" ++ org_data.name ++
      "\x27 already exists"⟩, db)
  else
    let org : Organization :=
      ⟨freshOrganizationId db, org_data.name, org_data.display_name,
       org_data.description, none⟩
    let db1 : DB := { db with organizations := db.organizations ++ [org] }
    match owner_outcome with
    | .error msg => (.error ⟨400, "Failed to create owner: " ++ msg⟩, db1)
    | .ok firebase_uid =>
      let user : User :=
        ⟨freshUserId db1, firebase_uid, org_data.owner_email, "owner", org.id⟩
      (.ok (org.id, user.id), { db1 with users := db1.users ++ [user] })

-- Artifact intake (main.py upload_recording / finalize_transcript)

/-- A fastapi UploadFile as the handler reads it: the client-supplied
filename and content type (either may be absent), and the byte size. -/
structure UploadFile where
  filename : Option String
  content_type : Option String
  size : Nat
deriving DecidableEq, Repr

/-- Python truthiness-based `or` on optional strings: None and the empty
string are both falsy (main.py line 923: mime or file.content_type). -/
def pyStrOr (a b : Option String) : Option String :=
  match a with
  | some s => if s == "" then b else some s
  | none => b

/-- Python truthiness of an optional string (main.py line 924:
`if detected_mime and ...`). -/
def pyTruthy : Option String → Bool
  | some s => s != ""
  | none => false

/-- Python str.startswith, over the character sequence. -/
def strStartsWith (s pre : String) : Bool := pre.data.isPrefixOf s.data

/-- Python Path(filename).name: everything after the last slash. -/
def pathName (filename : String) : String :=
  String.mk (filename.data.foldl
    (fun acc c => if c = '/' then [] else acc ++ [c]) [])

/-- storage.py generate_audio_object_name (lines 107-111). -/
def generate_audio_object_name (interview_id : Nat) (filename : String) : String :=
  "interviews/" ++ toString interview_id ++ "/audio/" ++ pathName filename

deriving instance DecidableEq for Except

/-- What a call to upload_recording leaves behind: the handler result, the
relational store, and the object names written to the object store. -/
structure UploadOutcome where
  result : Except ApiError AudioRecording
  db : DB
  store_writes : List String
deriving DecidableEq, Repr

/-- main.py line 923: detected_mime = mime or file.content_type. -/
def detected_mime (mime : Option String) (file : UploadFile) : Option String :=
  pyStrOr mime file.content_type

/-- main.py line 929: the object name derived for the upload. -/
def upload_object_name (interview_id : Nat) (file : UploadFile) : String :=
  generate_audio_object_name interview_id (file.filename.getD "recording.wav")

/-- The AudioRecording row committed by main.py lines 947-958 (the uri is the
one the MinIO storage layer reports back for the written object). -/
def upload_row (db : DB) (interview_id : Nat) (file : UploadFile)
    (mime : Option String) (sample_rate_hz duration_ms : Option Int) :
    AudioRecording :=
  ⟨freshRecordingId db, interview_id,
   "http://localhost:9000/audio-recordings/" ++ upload_object_name interview_id file,
   duration_ms, detected_mime mime file, sample_rate_hz,
   some (Int.ofNat file.size)⟩

/-- main.py upload_recording (lines 899-973): no auth dependency; checks are
interview existence, no existing recording, then the mime check (skipped
whenever no truthy mime resolves); the object-store write precedes the
metadata commit, and a store failure rolls the uncommitted insert back. -/
def upload_recording (db : DB) (interview_id : Nat) (file : UploadFile)
    (mime : Option String) (sample_rate_hz duration_ms : Option Int)
    (store_ok : Bool) : UploadOutcome :=
  match db.interviews.find? (fun i => i.id == interview_id) with
  | none => ⟨.error ⟨404, "Interview not found"⟩, db, []⟩
  | some _ =>
    match db.recordings.find? (fun r => r.interview_id == interview_id) with
    | some _ => ⟨.error ⟨400, "Recording already exists for this interview"⟩, db, []⟩
    | none =>
      if pyTruthy (detected_mime mime file) &&
          !(strStartsWith ((detected_mime mime file).getD "") "audio/") then
        ⟨.error ⟨400, "File must be an audio file"⟩, db, []⟩
      else if store_ok then
        ⟨.ok (upload_row db interview_id file mime sample_rate_hz duration_ms),
         { db with recordings := db.recordings ++
             [upload_row db interview_id file mime sample_rate_hz duration_ms] },
         [upload_object_name interview_id file]⟩
      else
        ⟨.error ⟨500, "Failed to upload recording"⟩, db,
         [upload_object_name interview_id file]⟩

/-- schemas.py TranscriptSegment request item (start_ms, end_ms, text). -/
structure SegmentIn where
  start_ms : Int
  end_ms : Int
  text : String
deriving DecidableEq, Repr

/-- schemas.py TranscriptFinalizeRequest. -/
structure TranscriptFinalizeRequest where
  lang : String
  source : String
  segments : List SegmentIn
deriving DecidableEq, Repr

/-- The segment rows built by the `for idx, segment_data in
enumerate(request.segments)` loop of main.py lines 1075-1083: the idx-th
input becomes a row with sequence = idx. -/
def mkSegments (transcript_id base : Nat) : Nat → List SegmentIn → List TranscriptSegment
  | _, [] => []
  | idx, s :: rest =>
    ⟨base + idx, transcript_id, s.start_ms, s.end_ms, s.text, idx⟩ ::
      mkSegments transcript_id base (idx + 1) rest

/-- main.py finalize_transcript (lines 1037-1094): no auth dependency;
rejects an empty segment list, a missing interview, and a duplicate
transcript; full_text is the segment texts joined with a single space in
input-array order. -/
def finalize_transcript (db : DB) (interview_id : Nat)
    (request : TranscriptFinalizeRequest) : Except ApiError Transcript × DB :=
  if request.segments.isEmpty then
    (.error ⟨400, "Request must contain at least one segment"⟩, db)
  else
    match db.interviews.find? (fun i => i.id == interview_id) with
    | none => (.error ⟨404, "Interview not found"⟩, db)
    | some _ =>
      match db.transcripts.find? (fun t => t.interview_id == interview_id) with
      | some _ =>
        (.error ⟨400, "Transcript already exists for this interview"⟩, db)
      | none =>
        let full_text :=
          String.intercalate " " (request.segments.map (fun s => s.text))
        let transcript : Transcript :=
          ⟨freshTranscriptId db, interview_id, request.lang, request.source,
           full_text⟩
        (.ok transcript,
         { db with
           transcripts := db.transcripts ++ [transcript]
           segments := db.segments ++
             mkSegments transcript.id (freshSegmentId db) 0 request.segments })

-- Remaining mutating endpoints of main.py

/-- main.py create_organization_user (lines 398-428) with its
_create_organization_user helper (lines 326-395): org existence, role
validation, duplicate-email check, then the Firebase provisioning and the
owner User commit; a failure there is rolled back (nothing was committed
yet in this request, so the store is unchanged). -/
def create_organization_user (db : DB) (org_id : Nat) (email role : String)
    (firebase_outcome : Except String String) : Except ApiError User × DB :=
  match db.organizations.find? (fun o =>
      o.id == org_id && o.deleted_at == none) with
  | none => (.error ⟨404, "Organization not found"⟩, db)
  | some _ =>
    if !(role == "admin" || role == "member") then
      (.error ⟨400, "Invalid role. Owner role can only be created with organization. Use \x27admin\x27 or \x27member\x27."⟩, db)
    else
      match db.users.find? (fun u => u.email == email) with
      | some _ =>
        (.error ⟨400, "User with email \x27" ++ email ++ "\x27 already exists"⟩, db)
      | none =>
        match firebase_outcome with
        | .error msg => (.error ⟨400, "Failed to create user: " ++ msg⟩, db)
        | .ok firebase_uid =>
          let user : User := ⟨freshUserId db, firebase_uid, email, role, org_id⟩
          (.ok user, { db with users := db.users ++ [user] })

/-- main.py delete_organization (lines 431-449): soft delete, stamping
deleted_at on the active organization row. -/
def delete_organization (db : DB) (org_id : Nat) (now : Int) :
    Except ApiError Unit × DB :=
  match db.organizations.find? (fun o =>
      o.id == org_id && o.deleted_at == none) with
  | none => (.error ⟨404, "Organization not found"⟩, db)
  | some _ =>
    (.ok (), { db with organizations := db.organizations.map (fun o =>
       if o.id == org_id && o.deleted_at == none then
         { o with deleted_at := some now }
       else o) })

/-- main.py create_study (lines 455-478): inserts a Study row owned by the
caller context organization. The slug column value is passed explicitly. -/
def create_study (db : DB) (org_user : OrgUser) (title : String)
    (description : Option String) (slug : String) : Except ApiError Study × DB :=
  let study : Study :=
    ⟨freshStudyId db, title, description, slug, org_user.organization_id⟩
  (.ok study, { db with studies := db.studies ++ [study] })

/-- main.py update_study (lines 530-563): ownership-scoped lookup, then
title/description updated only when provided. -/
def update_study (db : DB) (org_user : OrgUser) (study_id : Nat)
    (title description : Option String) : Except ApiError Unit × DB :=
  match db.studies.find? (fun s =>
      s.id == study_id && s.organization_id == org_user.organization_id) with
  | none => (.error ⟨404, "Study not found"⟩, db)
  | some _ =>
    (.ok (), { db with studies := db.studies.map (fun s =>
       if s.id == study_id && s.organization_id == org_user.organization_id then
         { s with
           title := title.getD s.title
           description := match description with
             | some d => some d
             | none => s.description }
       else s) })

/-- main.py delete_study (lines 566-585): ownership-scoped lookup, then the
row is deleted. Interview.study_id and InterviewGuide.study_id are
non-nullable foreign keys into studies, so the commit fails (IntegrityError,
nothing persisted) while child rows reference the study. -/
def delete_study (db : DB) (org_user : OrgUser) (study_id : Nat) :
    Except ApiError Unit × DB :=
  match db.studies.find? (fun s =>
      s.id == study_id && s.organization_id == org_user.organization_id) with
  | none => (.error ⟨404, "Study not found"⟩, db)
  | some _ =>
    if db.interviews.any (fun i => i.study_id == study_id) ||
        db.guides.any (fun g => g.study_id == study_id) then
      (.error ⟨500, "IntegrityError: study is referenced"⟩, db)
    else
      (.ok (), { db with studies := db.studies.filter (fun s => !(s.id == study_id)) })

/-- main.py upsert_study_guide (lines 591-632): ownership-scoped study
lookup, then the one guide row per study is replaced or created. -/
def upsert_study_guide (db : DB) (org_user : OrgUser) (study_id : Nat)
    (content_md : String) : Except ApiError Unit × DB :=
  match db.studies.find? (fun s =>
      s.id == study_id && s.organization_id == org_user.organization_id) with
  | none => (.error ⟨404, "Study not found"⟩, db)
  | some _ =>
    match db.guides.find? (fun g => g.study_id == study_id) with
    | some _ =>
      (.ok (), { db with guides := db.guides.map (fun g =>
         if g.study_id == study_id then { g with content_md := content_md }
         else g) })
    | none =>
      (.ok (), { db with guides :=
         db.guides ++ [⟨freshGuideId db, study_id, content_md⟩] })

/-- main.py create_test_user (lines 1100-1137): the test-environment seeding
endpoint inserting a User row directly. -/
def create_test_user (db : DB) (org_id : Nat) (firebase_uid email role : String) :
    Except ApiError User × DB :=
  match db.organizations.find? (fun o =>
      o.id == org_id && o.deleted_at == none) with
  | none => (.error ⟨404, "Organization not found"⟩, db)
  | some _ =>
    let user : User := ⟨freshUserId db, firebase_uid, email, role, org_id⟩
    (.ok user, { db with users := db.users ++ [user] })

-- Reusable-link redemption (not present under src/)

/-- What a redemption surfaces: a redirect carrying the resolved token, or
the distinct already-completed outcome. -/
inductive RedeemOutcome where
  | token (access_token : String)
  | completedOutcome
deriving DecidableEq, Repr

/-- Modelled from the spec: the GET /study/{slug}/start reusable-link
redemption endpoint (spec section 4.4, RedeemReusableLink) is absent from
src/ — only its tests (tests/step_defs/test_interview_access.py) reference
it. Following the spec words: look the study up by slug (404 if absent);
with an external pid, a completed matching Interview surfaces the completed
outcome, a pending one has its access_token reused with no new row, and a
missing one is created with external_participant_id set, platform_source
recorded and expires_at a fixed 7 days forward; with no pid a fresh
anonymous Interview is always minted. -/
def redeemReusableLink (db : DB) (slug : String) (pid platform : Option String)
    (now : Int) (fresh_token : String) : Except ApiError RedeemOutcome × DB :=
  match db.studies.find? (fun s => s.slug == slug) with
  | none => (.error ⟨404, "Study not found"⟩, db)
  | some study =>
    let mint : DB → Except ApiError RedeemOutcome × DB := fun d =>
      (.ok (.token fresh_token),
       { d with interviews := d.interviews ++
         [⟨freshInterviewId d, study.id, fresh_token, none, "pending", now,
           none, some (now + 7 * 86400), pid, platform, none, none, none⟩] })
    match pid with
    | some p =>
      match db.interviews.find? (fun i =>
          i.study_id == study.id && i.external_participant_id == some p) with
      | some i =>
        if i.status == "completed" then (.ok .completedOutcome, db)
        else (.ok (.token i.access_token), db)
      | none => mint db
    | none => mint db

-- The system's mutating operations, as one step type

/-- One mutating request of the API surface of main.py, with every external
nondeterminism (generated tokens, clock, Firebase and object-store
outcomes) made an explicit argument. -/
inductive Op where
  | createOrganization (org_data : OrganizationCreate)
      (owner_outcome : Except String String)
  | createOrganizationUser (org_id : Nat) (email role : String)
      (firebase_outcome : Except String String)
  | deleteOrganization (org_id : Nat) (now : Int)
  | createStudy (org_user : OrgUser) (title : String)
      (description : Option String) (slug : String)
  | updateStudy (org_user : OrgUser) (study_id : Nat)
      (title description : Option String)
  | deleteStudy (org_user : OrgUser) (study_id : Nat)
  | upsertGuide (org_user : OrgUser) (study_id : Nat) (content_md : String)
  | generateLink (org_user : OrgUser) (study_id : Nat) (access_token : String)
      (now : Int)
  | complete (access_token : String) (completion_data : InterviewCompleteRequest)
      (now : Int)
  | claim (access_token : String) (current_user : AuthUser)
  | upload (interview_id : Nat) (file : UploadFile) (mime : Option String)
      (sample_rate_hz duration_ms : Option Int) (store_ok : Bool)
  | finalize (interview_id : Nat) (request : TranscriptFinalizeRequest)
  | createTestUser (org_id : Nat) (firebase_uid email role : String)

/-- The relational store after the operation's request has been handled. -/
def Op.apply : Op → DB → DB
  | .createOrganization d o, db => (create_organization db d o).2
  | .createOrganizationUser oid e r f, db => (create_organization_user db oid e r f).2
  | .deleteOrganization oid now, db => (delete_organization db oid now).2
  | .createStudy ou t d s, db => (create_study db ou t d s).2
  | .updateStudy ou sid t d, db => (update_study db ou sid t d).2
  | .deleteStudy ou sid, db => (delete_study db ou sid).2
  | .upsertGuide ou sid c, db => (upsert_study_guide db ou sid c).2
  | .generateLink ou sid tok now, db => (generate_interview_link sid ou db tok now).2
  | .complete tok d now, db => (complete_interview db tok d now).2
  | .claim tok u, db => (claim_interview db tok u).2
  | .upload iid f m sr d ok, db => (upload_recording db iid f m sr d ok).db
  | .finalize iid req, db => (finalize_transcript db iid req).2
  | .createTestUser oid uid e r, db => (create_test_user db oid uid e r).2

-- State invariants (spec section 3 / models.py constraints)

/-- An Interview status is one of the two modelled states. -/
def StatusOk (i : Interview) : Prop :=
  i.status = "pending" ∨ i.status = "completed"

instance (i : Interview) : Decidable (StatusOk i) := by
  unfold StatusOk; infer_instance

/-- The store invariant: interview primary keys and access tokens are unique
(models.py lines 90, 94), statuses are pending/completed, and recordings and
transcripts carry at most one row per interview (models.py lines 131, 148). -/
def Inv (db : DB) : Prop :=
  (db.interviews.map (fun i => i.id)).Nodup ∧
  (db.interviews.map (fun i => i.access_token)).Nodup ∧
  (∀ i ∈ db.interviews, StatusOk i) ∧
  (db.recordings.map (fun r => r.interview_id)).Nodup ∧
  (db.transcripts.map (fun t => t.interview_id)).Nodup

instance (db : DB) : Decidable (Inv db) := by
  unfold Inv; infer_instance

/-- The allowed evolution of a status value: unchanged, or the one-way
pending-to-completed transition. -/
def statusStep (a b : String) : Prop :=
  a = b ∨ (a = "pending" ∧ b = "completed")

/-- Row-level immutability of access_token plus monotonicity of status,
matched across the operation by primary key. -/
def InterviewsStable (old new : List Interview) : Prop :=
  ∀ j ∈ new, ∀ i ∈ old, i.id = j.id →
    i.access_token = j.access_token ∧ statusStep i.status j.status

/-- Once interviewee_firebase_uid is set it is never re-assigned or cleared. -/
def UidStable (old new : List Interview) : Prop :=
  ∀ j ∈ new, ∀ i ∈ old, i.id = j.id → ∀ u,
    i.interviewee_firebase_uid = some u → j.interviewee_firebase_uid = some u

instance (old new : List Interview) : Decidable (InterviewsStable old new) := by
  unfold InterviewsStable statusStep; infer_instance

instance (old new : List Interview) : Decidable (UidStable old new) := by
  unfold UidStable; infer_instance

-- List-level helper lemmas

lemma mem_le_foldr_max (l : List Nat) (x : Nat) (hx : x ∈ l) :
    x ≤ l.foldr max 0 := by
  induction l with
  | nil => cases hx
  | cons a t ih =>
    rcases List.mem_cons.mp hx with rfl | hmem
    · exact le_max_left _ _
    · exact le_trans (ih hmem) (le_max_right _ _)

lemma freshInterviewId_gt (db : DB) (i : Interview) (hi : i ∈ db.interviews) :
    i.id < freshInterviewId db := by
  have hle := mem_le_foldr_max (db.interviews.map (fun j => j.id)) i.id
    (List.mem_map_of_mem _ hi)
  unfold freshInterviewId
  omega

lemma map_key_eq {α β : Type} (l : List α) (f : α → α) (key : α → β)
    (h : ∀ x ∈ l, key (f x) = key x) : (l.map f).map key = l.map key := by
  induction l with
  | nil => rfl
  | cons a t ih =>
    simp only [List.map_cons, List.cons.injEq]
    exact ⟨h a (List.mem_cons_self a t),
           ih (fun x hx => h x (List.mem_cons_of_mem a hx))⟩

lemma nodup_key_append {α β : Type} (l : List α) (x : α) (key : α → β)
    (h : (l.map key).Nodup) (hx : ∀ a ∈ l, key a ≠ key x) :
    ((l ++ [x]).map key).Nodup := by
  rw [List.map_append, List.nodup_append]
  refine ⟨h, List.nodup_singleton _, ?_⟩
  intro b hb hb2
  obtain ⟨a, ha, rfl⟩ := List.mem_map.mp hb
  have hbx : key a = key x := by simpa using hb2
  exact hx a ha hbx

lemma find?_map_pres {α : Type} (l : List α) (f : α → α) (p : α → Bool)
    (h : ∀ x, p (f x) = p x) :
    (l.map f).find? p = (l.find? p).map f := by
  induction l with
  | nil => rfl
  | cons a t ih =>
    simp only [List.map_cons, List.find?_cons]
    rw [h a]
    cases hp : p a
    · simpa using ih
    · rfl

-- Stability of unchanged interview tables

lemma stableOfUnchanged (l : List Interview)
    (hid : (l.map (fun i => i.id)).Nodup) : InterviewsStable l l := by
  intro j hj i hi hij
  have hieq : i = j := List.inj_on_of_nodup_map hid hi hj hij
  subst hieq
  exact ⟨rfl, Or.inl rfl⟩

lemma uidStableOfUnchanged (l : List Interview)
    (hid : (l.map (fun i => i.id)).Nodup) : UidStable l l := by
  intro j hj i hi hij u hu
  have hieq : i = j := List.inj_on_of_nodup_map hid hi hj hij
  subst hieq
  exact hu

lemma stable_append (l : List Interview) (x : Interview)
    (hid : (l.map (fun i => i.id)).Nodup)
    (hfresh : ∀ i ∈ l, i.id ≠ x.id) :
    InterviewsStable l (l ++ [x]) := by
  intro j hj i hi hij
  rcases List.mem_append.mp hj with hj | hj
  · exact stableOfUnchanged l hid j hj i hi hij
  · have hjx : j = x := by simpa using hj
    subst hjx
    exact absurd hij (hfresh i hi)

lemma uid_stable_append (l : List Interview) (x : Interview)
    (hid : (l.map (fun i => i.id)).Nodup)
    (hfresh : ∀ i ∈ l, i.id ≠ x.id) :
    UidStable l (l ++ [x]) := by
  intro j hj i hi hij
  rcases List.mem_append.mp hj with hj | hj
  · exact uidStableOfUnchanged l hid j hj i hi hij
  · have hjx : j = x := by simpa using hj
    subst hjx
    exact absurd hij (hfresh i hi)

/-- Shared shape for operations that leave the interview, recording and
transcript tables untouched. -/
lemma unchangedTriple (db db' : DB) (h : Inv db)
    (hI : db'.interviews = db.interviews)
    (hR : db'.recordings = db.recordings)
    (hT : db'.transcripts = db.transcripts) :
    Inv db' ∧ InterviewsStable db.interviews db'.interviews ∧
      UidStable db.interviews db'.interviews := by
  obtain ⟨h1, h2, h3, h4, h5⟩ := h
  refine ⟨⟨?_, ?_, ?_, ?_, ?_⟩, ?_, ?_⟩
  · rw [hI]; exact h1
  · rw [hI]; exact h2
  · rw [hI]; exact h3
  · rw [hR]; exact h4
  · rw [hT]; exact h5
  · rw [hI]; exact stableOfUnchanged _ h1
  · rw [hI]; exact uidStableOfUnchanged _ h1

-- Which tables each handler leaves untouched

lemma create_organization_tables (db : DB) (d : OrganizationCreate)
    (o : Except String String) :
    (create_organization db d o).2.interviews = db.interviews ∧
    (create_organization db d o).2.recordings = db.recordings ∧
    (create_organization db d o).2.transcripts = db.transcripts := by
  unfold create_organization
  split
  · exact ⟨rfl, rfl, rfl⟩
  · split <;> exact ⟨rfl, rfl, rfl⟩

lemma create_organization_user_tables (db : DB) (oid : Nat) (e r : String)
    (f : Except String String) :
    (create_organization_user db oid e r f).2.interviews = db.interviews ∧
    (create_organization_user db oid e r f).2.recordings = db.recordings ∧
    (create_organization_user db oid e r f).2.transcripts = db.transcripts := by
  unfold create_organization_user
  split
  · exact ⟨rfl, rfl, rfl⟩
  · split
    · exact ⟨rfl, rfl, rfl⟩
    · split
      · exact ⟨rfl, rfl, rfl⟩
      · split <;> exact ⟨rfl, rfl, rfl⟩

lemma delete_organization_tables (db : DB) (oid : Nat) (now : Int) :
    (delete_organization db oid now).2.interviews = db.interviews ∧
    (delete_organization db oid now).2.recordings = db.recordings ∧
    (delete_organization db oid now).2.transcripts = db.transcripts := by
  unfold delete_organization
  split <;> exact ⟨rfl, rfl, rfl⟩

lemma create_study_tables (db : DB) (ou : OrgUser) (t : String)
    (d : Option String) (s : String) :
    (create_study db ou t d s).2.interviews = db.interviews ∧
    (create_study db ou t d s).2.recordings = db.recordings ∧
    (create_study db ou t d s).2.transcripts = db.transcripts :=
  ⟨rfl, rfl, rfl⟩

lemma update_study_tables (db : DB) (ou : OrgUser) (sid : Nat)
    (t d : Option String) :
    (update_study db ou sid t d).2.interviews = db.interviews ∧
    (update_study db ou sid t d).2.recordings = db.recordings ∧
    (update_study db ou sid t d).2.transcripts = db.transcripts := by
  unfold update_study
  split <;> exact ⟨rfl, rfl, rfl⟩

lemma delete_study_tables (db : DB) (ou : OrgUser) (sid : Nat) :
    (delete_study db ou sid).2.interviews = db.interviews ∧
    (delete_study db ou sid).2.recordings = db.recordings ∧
    (delete_study db ou sid).2.transcripts = db.transcripts := by
  unfold delete_study
  split
  · exact ⟨rfl, rfl, rfl⟩
  · split <;> exact ⟨rfl, rfl, rfl⟩

lemma upsert_study_guide_tables (db : DB) (ou : OrgUser) (sid : Nat)
    (c : String) :
    (upsert_study_guide db ou sid c).2.interviews = db.interviews ∧
    (upsert_study_guide db ou sid c).2.recordings = db.recordings ∧
    (upsert_study_guide db ou sid c).2.transcripts = db.transcripts := by
  unfold upsert_study_guide
  split
  · exact ⟨rfl, rfl, rfl⟩
  · split <;> exact ⟨rfl, rfl, rfl⟩

lemma create_test_user_tables (db : DB) (oid : Nat) (u e r : String) :
    (create_test_user db oid u e r).2.interviews = db.interviews ∧
    (create_test_user db oid u e r).2.recordings = db.recordings ∧
    (create_test_user db oid u e r).2.transcripts = db.transcripts := by
  unfold create_test_user
  split <;> exact ⟨rfl, rfl, rfl⟩

-- Field-preservation facts about the two row mutations

lemma completeUpdate_id (d : InterviewCompleteRequest) (now : Int) (tok : String)
    (j : Interview) : (completeUpdate d now tok j).id = j.id := by
  unfold completeUpdate; split <;> rfl

lemma completeUpdate_token (d : InterviewCompleteRequest) (now : Int) (tok : String)
    (j : Interview) : (completeUpdate d now tok j).access_token = j.access_token := by
  unfold completeUpdate; split <;> rfl

lemma completeUpdate_uid (d : InterviewCompleteRequest) (now : Int) (tok : String)
    (j : Interview) :
    (completeUpdate d now tok j).interviewee_firebase_uid =
      j.interviewee_firebase_uid := by
  unfold completeUpdate; split <;> rfl

lemma claimUpdate_id (u tok : String) (j : Interview) :
    (claimUpdate u tok j).id = j.id := by
  unfold claimUpdate; split <;> rfl

lemma claimUpdate_token (u tok : String) (j : Interview) :
    (claimUpdate u tok j).access_token = j.access_token := by
  unfold claimUpdate; split <;> rfl

lemma claimUpdate_status (u tok : String) (j : Interview) :
    (claimUpdate u tok j).status = j.status := by
  unfold claimUpdate; split <;> rfl

-- Preservation through the interview-table-touching handlers

lemma generate_link_pres (sid : Nat) (ou : OrgUser) (db : DB) (tok : String)
    (now : Int) (h : Inv db) :
    Inv (generate_interview_link sid ou db tok now).2 ∧
    InterviewsStable db.interviews
      (generate_interview_link sid ou db tok now).2.interviews ∧
    UidStable db.interviews
      (generate_interview_link sid ou db tok now).2.interviews := by
  obtain ⟨h1, h2, h3, h4, h5⟩ := h
  unfold generate_interview_link
  split
  · exact unchangedTriple db db ⟨h1, h2, h3, h4, h5⟩ rfl rfl rfl
  · split
    · exact unchangedTriple db db ⟨h1, h2, h3, h4, h5⟩ rfl rfl rfl
    · rename_i hany
      have hfresh : ∀ i ∈ db.interviews, i.id ≠ freshInterviewId db :=
        fun i hi => Nat.ne_of_lt (freshInterviewId_gt db i hi)
      have htok : ∀ i ∈ db.interviews, i.access_token ≠ tok := by
        intro i hi heq
        exact hany (List.any_eq_true.mpr ⟨i, hi, by simp [heq]⟩)
      refine ⟨⟨?_, ?_, ?_, h4, h5⟩, ?_, ?_⟩
      · exact nodup_key_append _ _ _ h1 hfresh
      · exact nodup_key_append _ _ _ h2 htok
      · intro i hi
        rcases List.mem_append.mp hi with hi | hi
        · exact h3 i hi
        · have : i = ⟨freshInterviewId db, sid, tok, none, "pending", now,
              none, none, none, none, none, none, none⟩ := by simpa using hi
          subst this
          exact Or.inl rfl
      · exact stable_append _ _ h1 hfresh
      · exact uid_stable_append _ _ h1 hfresh

lemma complete_pres (db : DB) (tok : String) (d : InterviewCompleteRequest)
    (now : Int) (h : Inv db) :
    Inv (complete_interview db tok d now).2 ∧
    InterviewsStable db.interviews (complete_interview db tok d now).2.interviews ∧
    UidStable db.interviews (complete_interview db tok d now).2.interviews := by
  obtain ⟨h1, h2, h3, h4, h5⟩ := h
  unfold complete_interview
  split
  · exact unchangedTriple db db ⟨h1, h2, h3, h4, h5⟩ rfl rfl rfl
  · rename_i i0 hfind
    split
    · exact unchangedTriple db db ⟨h1, h2, h3, h4, h5⟩ rfl rfl rfl
    · rename_i hstat
      have hi0mem : i0 ∈ db.interviews := List.mem_of_find?_eq_some hfind
      have hi0tok : i0.access_token = tok := by
        have := List.find?_some hfind
        simpa using this
      have hi0pending : i0.status = "pending" := by
        rcases h3 i0 hi0mem with hp | hc
        · exact hp
        · exact absurd (by simp [hc]) hstat
      have hmapid :=
        map_key_eq db.interviews (completeUpdate d now tok) (fun i => i.id)
          (fun x _ => completeUpdate_id d now tok x)
      have hmaptok :=
        map_key_eq db.interviews (completeUpdate d now tok)
          (fun i => i.access_token) (fun x _ => completeUpdate_token d now tok x)
      refine ⟨⟨?_, ?_, ?_, h4, h5⟩, ?_, ?_⟩
      · show ((db.interviews.map (completeUpdate d now tok)).map (fun i => i.id)).Nodup
        rw [hmapid]; exact h1
      · show ((db.interviews.map (completeUpdate d now tok)).map
          (fun i => i.access_token)).Nodup
        rw [hmaptok]; exact h2
      · intro j hj
        obtain ⟨x, hx, rfl⟩ := List.mem_map.mp hj
        by_cases hc : x.access_token == tok
        · right
          simp [completeUpdate, hc]
        · have hxx : completeUpdate d now tok x = x := by
            simp [completeUpdate, hc]
          rw [hxx]
          exact h3 x hx
      · intro j hj i hi hij
        obtain ⟨x, hx, rfl⟩ := List.mem_map.mp hj
        rw [completeUpdate_id] at hij
        obtain rfl : i = x := List.inj_on_of_nodup_map h1 hi hx hij
        refine ⟨(completeUpdate_token d now tok i).symm, ?_⟩
        by_cases hc : i.access_token == tok
        · have hitok : i.access_token = tok := by simpa using hc
          have hii0 : i = i0 :=
            List.inj_on_of_nodup_map h2 hi hi0mem (by rw [hitok, hi0tok])
          refine Or.inr ⟨hii0 ▸ hi0pending, ?_⟩
          simp [completeUpdate, hc]
        · have hxx : completeUpdate d now tok i = i := by
            simp [completeUpdate, hc]
          rw [hxx]
          exact Or.inl rfl
      · intro j hj i hi hij u hu
        obtain ⟨x, hx, rfl⟩ := List.mem_map.mp hj
        rw [completeUpdate_id] at hij
        obtain rfl : i = x := List.inj_on_of_nodup_map h1 hi hx hij
        rw [completeUpdate_uid]
        exact hu

lemma claim_pres (db : DB) (tok : String) (u : AuthUser) (h : Inv db) :
    Inv (claim_interview db tok u).2 ∧
    InterviewsStable db.interviews (claim_interview db tok u).2.interviews ∧
    UidStable db.interviews (claim_interview db tok u).2.interviews := by
  obtain ⟨h1, h2, h3, h4, h5⟩ := h
  unfold claim_interview
  split
  · exact unchangedTriple db db ⟨h1, h2, h3, h4, h5⟩ rfl rfl rfl
  · split
    · exact unchangedTriple db db ⟨h1, h2, h3, h4, h5⟩ rfl rfl rfl
    · rename_i i0 hfind
      split
      · exact unchangedTriple db db ⟨h1, h2, h3, h4, h5⟩ rfl rfl rfl
      · rename_i hunclaimed
        have hi0mem : i0 ∈ db.interviews := List.mem_of_find?_eq_some hfind
        have hi0tok : i0.access_token = tok := by
          have := List.find?_some hfind
          simpa using this
        have hi0none : i0.interviewee_firebase_uid = none := by
          by_contra hne
          exact hunclaimed (by simpa using hne)
        have hmapid :=
          map_key_eq db.interviews (claimUpdate u.firebase_uid tok) (fun i => i.id)
            (fun x _ => claimUpdate_id u.firebase_uid tok x)
        have hmaptok :=
          map_key_eq db.interviews (claimUpdate u.firebase_uid tok)
            (fun i => i.access_token) (fun x _ => claimUpdate_token u.firebase_uid tok x)
        refine ⟨⟨?_, ?_, ?_, h4, h5⟩, ?_, ?_⟩
        · show ((db.interviews.map (claimUpdate u.firebase_uid tok)).map
            (fun i => i.id)).Nodup
          rw [hmapid]; exact h1
        · show ((db.interviews.map (claimUpdate u.firebase_uid tok)).map
            (fun i => i.access_token)).Nodup
          rw [hmaptok]; exact h2
        · intro j hj
          obtain ⟨x, hx, rfl⟩ := List.mem_map.mp hj
          unfold StatusOk
          rw [claimUpdate_status]
          exact h3 x hx
        · intro j hj i hi hij
          obtain ⟨x, hx, rfl⟩ := List.mem_map.mp hj
          rw [claimUpdate_id] at hij
          obtain rfl : i = x := List.inj_on_of_nodup_map h1 hi hx hij
          exact ⟨(claimUpdate_token u.firebase_uid tok i).symm,
                 Or.inl (claimUpdate_status u.firebase_uid tok i).symm⟩
        · intro j hj i hi hij w hw
          obtain ⟨x, hx, rfl⟩ := List.mem_map.mp hj
          rw [claimUpdate_id] at hij
          obtain rfl : i = x := List.inj_on_of_nodup_map h1 hi hx hij
          by_cases hc : i.access_token == tok
          · have hitok : i.access_token = tok := by simpa using hc
            have hii0 : i = i0 :=
              List.inj_on_of_nodup_map h2 hi hi0mem (by rw [hitok, hi0tok])
            rw [hii0, hi0none] at hw
            cases hw
          · have hxx : claimUpdate u.firebase_uid tok i = i := by
              simp [claimUpdate, hc]
            rw [hxx]
            exact hw

lemma upload_pres (db : DB) (iid : Nat) (file : UploadFile) (m : Option String)
    (sr dur : Option Int) (ok : Bool) (h : Inv db) :
    Inv (upload_recording db iid file m sr dur ok).db ∧
    InterviewsStable db.interviews
      (upload_recording db iid file m sr dur ok).db.interviews ∧
    UidStable db.interviews
      (upload_recording db iid file m sr dur ok).db.interviews := by
  obtain ⟨h1, h2, h3, h4, h5⟩ := h
  unfold upload_recording
  split
  · exact unchangedTriple db db ⟨h1, h2, h3, h4, h5⟩ rfl rfl rfl
  · split
    · exact unchangedTriple db db ⟨h1, h2, h3, h4, h5⟩ rfl rfl rfl
    · rename_i hnone
      split
      · exact unchangedTriple db db ⟨h1, h2, h3, h4, h5⟩ rfl rfl rfl
      · split
        · have hkey : ∀ r ∈ db.recordings, r.interview_id ≠ iid := by
            intro r hr heq
            have := List.find?_eq_none.mp hnone r hr
            simp [heq] at this
          refine ⟨⟨h1, h2, h3, ?_, h5⟩, stableOfUnchanged _ h1,
                  uidStableOfUnchanged _ h1⟩
          exact nodup_key_append _ _ _ h4 hkey
        · exact unchangedTriple db db ⟨h1, h2, h3, h4, h5⟩ rfl rfl rfl

lemma finalize_pres (db : DB) (iid : Nat) (req : TranscriptFinalizeRequest)
    (h : Inv db) :
    Inv (finalize_transcript db iid req).2 ∧
    InterviewsStable db.interviews (finalize_transcript db iid req).2.interviews ∧
    UidStable db.interviews (finalize_transcript db iid req).2.interviews := by
  obtain ⟨h1, h2, h3, h4, h5⟩ := h
  unfold finalize_transcript
  split
  · exact unchangedTriple db db ⟨h1, h2, h3, h4, h5⟩ rfl rfl rfl
  · split
    · exact unchangedTriple db db ⟨h1, h2, h3, h4, h5⟩ rfl rfl rfl
    · split
      · exact unchangedTriple db db ⟨h1, h2, h3, h4, h5⟩ rfl rfl rfl
      · rename_i hnone
        have hkey : ∀ t ∈ db.transcripts, t.interview_id ≠ iid := by
          intro t ht heq
          have := List.find?_eq_none.mp hnone t ht
          simp [heq] at this
        refine ⟨⟨h1, h2, h3, h4, ?_⟩, stableOfUnchanged _ h1,
                uidStableOfUnchanged _ h1⟩
        exact nodup_key_append _ _ _ h5 hkey

/-- Every operation of the API surface preserves the store invariant and the
per-row immutability/monotonicity properties. -/
lemma op_preserves (op : Op) (db : DB) (h : Inv db) :
    Inv (op.apply db) ∧ InterviewsStable db.interviews (op.apply db).interviews ∧
      UidStable db.interviews (op.apply db).interviews := by
  cases op with
  | createOrganization d o =>
    obtain ⟨hI, hR, hT⟩ := create_organization_tables db d o
    exact unchangedTriple db _ h hI hR hT
  | createOrganizationUser oid e r f =>
    obtain ⟨hI, hR, hT⟩ := create_organization_user_tables db oid e r f
    exact unchangedTriple db _ h hI hR hT
  | deleteOrganization oid now =>
    obtain ⟨hI, hR, hT⟩ := delete_organization_tables db oid now
    exact unchangedTriple db _ h hI hR hT
  | createStudy ou t d s =>
    obtain ⟨hI, hR, hT⟩ := create_study_tables db ou t d s
    exact unchangedTriple db _ h hI hR hT
  | updateStudy ou sid t d =>
    obtain ⟨hI, hR, hT⟩ := update_study_tables db ou sid t d
    exact unchangedTriple db _ h hI hR hT
  | deleteStudy ou sid =>
    obtain ⟨hI, hR, hT⟩ := delete_study_tables db ou sid
    exact unchangedTriple db _ h hI hR hT
  | upsertGuide ou sid c =>
    obtain ⟨hI, hR, hT⟩ := upsert_study_guide_tables db ou sid c
    exact unchangedTriple db _ h hI hR hT
  | generateLink ou sid tok now => exact generate_link_pres sid ou db tok now h
  | complete tok d now => exact complete_pres db tok d now h
  | claim tok u => exact claim_pres db tok u h
  | upload iid f m sr dur ok => exact upload_pres db iid f m sr dur ok h
  | finalize iid req => exact finalize_pres db iid req h
  | createTestUser oid uid e r =>
    obtain ⟨hI, hR, hT⟩ := create_test_user_tables db oid uid e r
    exact unchangedTriple db _ h hI hR hT

lemma mkSegments_get? (tid base : Nat) (l : List SegmentIn) (idx k : Nat) :
    (mkSegments tid base idx l).get? k =
      (l.get? k).map (fun s =>
        ⟨base + (idx + k), tid, s.start_ms, s.end_ms, s.text, idx + k⟩) := by
  induction l generalizing idx k with
  | nil => simp [mkSegments]
  | cons a t ih =>
    cases k with
    | zero => simp [mkSegments]
    | succ k =>
      have harith : idx + 1 + k = idx + (k + 1) := by omega
      simp only [mkSegments, List.get?_cons_succ, ih (idx + 1) k, harith]

-- Concrete stores and callers used to evaluate the handlers

/-- A store with a completed interview, an expired-but-pending interview and
their study, exercising GET /interview/{token}. -/
def dbC1 : DB :=
  { DB.empty with
    studies := [⟨1, "S1", none, "s1", 1⟩]
    interviews :=
      [⟨1, 1, "tok-completed", none, "completed", 0, some 5, none, none,
        none, none, none, none⟩,
       ⟨2, 1, "tok-expired", none, "pending", 0, none, some (-100), none,
        none, none, none, none⟩] }

/-- Two organizations; a study and its interview belong to the second one;
the only User row belongs to the first organization. -/
def dbC2 : DB :=
  { DB.empty with
    organizations :=
      [⟨1, "first-org", "First", none, none⟩,
       ⟨2, "second-org", "Second", none, none⟩]
    users := [⟨1, "uid-a", "a@first.org", "owner", 1⟩]
    studies := [⟨10, "Cross", none, "cross", 2⟩]
    interviews :=
      [⟨55, 10, "tok55", none, "pending", 0, none, none, none, none, none,
        none, none⟩] }

/-- A super-admin bearer (tenant claim organization, role super_admin). -/
def superAdminCaller : AuthUser := ⟨"sa-uid", "organization", some "sa@platform", true⟩

/-- A regular member of the first organization. -/
def orgACaller : AuthUser := ⟨"uid-a", "organization", some "a@first.org", false⟩

/-- A store with one study reachable by slug and one pending interview
already redeemed for external pid prolific_abc. -/
def dbC3 : DB :=
  { DB.empty with
    studies := [⟨3, "Mobile Banking", none, "mobile-banking", 1⟩]
    interviews :=
      [⟨9, 3, "tok-reused", none, "pending", 0, none, some 604800,
        some "prolific_abc", some "prolific", none, none, none⟩] }

/-- A store with a single pending interview for the completion flow. -/
def dbC4 : DB :=
  { DB.empty with
    interviews :=
      [⟨1, 1, "tk", none, "pending", 0, none, none, none, none, none, none,
        none⟩] }

/-- A store with a single already-claimed interview. -/
def dbC5 : DB :=
  { DB.empty with
    interviews :=
      [⟨1, 1, "tk", some "uid-prev", "pending", 0, none, none, none, none,
        none, none, none⟩] }

/-- An interviewee-tenant bearer. -/
def intervieweeCaller : AuthUser := ⟨"uid-new", "interviewee", some "p@x", false⟩

/-- A store with one interview lacking both artifacts; it is both completed
and expired, which the artifact-intake handlers never look at. -/
def dbC10 : DB :=
  { DB.empty with
    interviews :=
      [⟨7, 1, "tok7", none, "completed", 0, some 10, some (-100), none, none,
        none, none, none⟩] }

/-- A store with a single pending interview and no recording, for the
no-mime-resolved upload. -/
def dbC9 : DB :=
  { DB.empty with
    interviews :=
      [⟨1, 1, "t1", none, "pending", 0, none, none, none, none, none, none,
        none⟩] }

/-- A three-segment finalization request. -/
def reqC7 : TranscriptFinalizeRequest :=
  ⟨"en", "pipecat", [⟨0, 5, "hello"⟩, ⟨5, 9, "wide"⟩, ⟨9, 12, "world"⟩]⟩

-- Claim theorems

/-- Claim C4: after a successful CompleteInterview on a token, a second
CompleteInterview on the same token fails BadRequest "Interview already
completed" and leaves the store — in particular completed_at,
transcript_url, recording_url, notes and status as the first call set
them — entirely unchanged. -/
lemma complete_ok_cases (db : DB) (tok : String) (d : InterviewCompleteRequest)
    (t : Int) (h : (complete_interview db tok d t).1.isOk = true) :
    ∃ i0, db.interviews.find? (fun i => i.access_token == tok) = some i0 ∧
      ¬((i0.status == "completed") = true) ∧
      (complete_interview db tok d t).2 =
        { db with interviews := db.interviews.map (completeUpdate d t tok) } := by
  unfold complete_interview at h
  split at h
  · simp [Except.isOk, Except.toBool] at h
  · rename_i i0 hfind
    split at h
    · simp [Except.isOk, Except.toBool] at h
    · rename_i hs
      refine ⟨i0, hfind, hs, ?_⟩
      unfold complete_interview
      simp only [hfind]
      rw [if_neg hs]

theorem C4_complete_twice (db : DB) (tok : String)
    (d1 d2 : InterviewCompleteRequest) (t1 t2 : Int)
    (h : (complete_interview db tok d1 t1).1.isOk = true) :
    complete_interview (complete_interview db tok d1 t1).2 tok d2 t2 =
      (.error ⟨400, "Interview already completed"⟩,
       (complete_interview db tok d1 t1).2) := by
  obtain ⟨i0, hfind, hs, hdb1⟩ := complete_ok_cases db tok d1 t1 h
  have htokpres : ∀ x : Interview,
      ((completeUpdate d1 t1 tok x).access_token == tok) =
        (x.access_token == tok) := by
    intro x
    rw [completeUpdate_token]
  have hfind1 : (db.interviews.map (completeUpdate d1 t1 tok)).find?
      (fun i => i.access_token == tok) = some (completeUpdate d1 t1 tok i0) := by
    rw [find?_map_pres _ _ _ htokpres, hfind]
    rfl
  have hcomp : ((completeUpdate d1 t1 tok i0).status == "completed") = true := by
    have hi0tok : (i0.access_token == tok) = true := by
      have hps := List.find?_some hfind
      simpa using hps
    simp [completeUpdate, hi0tok]
  rw [hdb1]
  unfold complete_interview
  simp only [hfind1]
  rw [if_pos hcomp]

/-- Witness for C4 at a concrete store: completing a pending interview
succeeds, and the second completion is the 400 with no state change. -/
theorem C4_witness :
    complete_interview (complete_interview dbC4 "tk" ⟨"https://x/t.json", none, none⟩ 5).2
        "tk" ⟨"https://y/u.json", some "r", some "n"⟩ 9 =
      (.error ⟨400, "Interview already completed"⟩,
       (complete_interview dbC4 "tk" ⟨"https://x/t.json", none, none⟩ 5).2) :=
  C4_complete_twice dbC4 "tk" ⟨"https://x/t.json", none, none⟩
    ⟨"https://y/u.json", some "r", some "n"⟩ 5 9 (by decide)

/-- Claim C5: ClaimInterview sets interviewee_firebase_uid at most once —
claiming an already-claimed interview fails BadRequest "Interview already
claimed" with the store unchanged, and no operation of the API surface
re-assigns or clears a set interviewee_firebase_uid. -/
theorem C5_claim_single_use :
    (∀ (db : DB) (tok : String) (user : AuthUser) (i : Interview) (u : String),
        user.tenant_type = "interviewee" →
        db.interviews.find? (fun j => j.access_token == tok) = some i →
        i.interviewee_firebase_uid = some u →
        claim_interview db tok user =
          (.error ⟨400, "Interview already claimed"⟩, db)) ∧
    (∀ (op : Op) (db : DB), Inv db →
        UidStable db.interviews (op.apply db).interviews) := by
  constructor
  · intro db tok user i u htenant hfind hset
    unfold claim_interview
    rw [if_neg (by simp [htenant])]
    simp only [hfind]
    rw [if_pos (by simp [hset])]
  · intro op db h
    exact (op_preserves op db h).2.2

/-- Witness for C5: the concrete already-claimed interview yields the 400
with the store unchanged, and a concrete claim operation leaves set uids
in place. -/
theorem C5_witness :
    claim_interview dbC5 "tk" intervieweeCaller =
      (.error ⟨400, "Interview already claimed"⟩, dbC5) ∧
    UidStable dbC5.interviews
      ((Op.claim "tk" intervieweeCaller).apply dbC5).interviews :=
  ⟨C5_claim_single_use.1 dbC5 "tk" intervieweeCaller
     ⟨1, 1, "tk", some "uid-prev", "pending", 0, none, none, none, none,
      none, none, none⟩ "uid-prev" rfl (by decide) rfl,
   C5_claim_single_use.2 (Op.claim "tk" intervieweeCaller) dbC5 (by decide)⟩

/-- Claim C6: every operation of the API surface preserves the invariant
that access tokens are unique across interviews, never change once the row
exists, that status only moves pending to completed, and that at most one
AudioRecording and one Transcript row exist per interview. -/
theorem C6_invariants_preserved (op : Op) (db : DB) (h : Inv db) :
    Inv (op.apply db) ∧ InterviewsStable db.interviews (op.apply db).interviews :=
  ⟨(op_preserves op db h).1, (op_preserves op db h).2.1⟩

/-- Witness for C6 at a concrete store and operation. -/
theorem C6_witness :
    Inv ((Op.complete "tk" ⟨"https://x/t.json", none, none⟩ 3).apply dbC4) ∧
    InterviewsStable dbC4.interviews
      ((Op.complete "tk" ⟨"https://x/t.json", none, none⟩ 3).apply dbC4).interviews :=
  C6_invariants_preserved (Op.complete "tk" ⟨"https://x/t.json", none, none⟩ 3)
    dbC4 (by decide)

/-- Claim C7: for a non-empty segment list, FinalizeTranscript persists
full_text as the segment texts joined with a single space in input-array
order, and the k-th persisted segment row carries sequence = k, its 0-based
index in the input array. -/
theorem C7_finalize_full_text_and_sequence (db : DB) (iid : Nat)
    (req : TranscriptFinalizeRequest) (ivw : Interview)
    (hne : req.segments.isEmpty = false)
    (hiv : db.interviews.find? (fun i => i.id == iid) = some ivw)
    (hnt : db.transcripts.find? (fun t => t.interview_id == iid) = none) :
    (finalize_transcript db iid req).1 =
      .ok ⟨freshTranscriptId db, iid, req.lang, req.source,
           String.intercalate " " (req.segments.map (fun s => s.text))⟩ ∧
    (finalize_transcript db iid req).2.segments =
      db.segments ++
        mkSegments (freshTranscriptId db) (freshSegmentId db) 0 req.segments ∧
    ∀ k, (mkSegments (freshTranscriptId db) (freshSegmentId db) 0
        req.segments).get? k =
      (req.segments.get? k).map (fun s =>
        ⟨freshSegmentId db + k, freshTranscriptId db, s.start_ms, s.end_ms,
         s.text, k⟩) := by
  unfold finalize_transcript
  rw [if_neg (by simp [hne])]
  simp only [hiv, hnt]
  refine ⟨by trivial, by trivial, ?_⟩
  intro k
  have hk := mkSegments_get? (freshTranscriptId db) (freshSegmentId db)
    req.segments 0 k
  simpa using hk

/-- Witness for C7 at a three-segment request. -/
theorem C7_witness :
    (finalize_transcript dbC10 7 reqC7).1 =
      .ok ⟨1, 7, "en", "pipecat", "hello wide world"⟩ ∧
    (finalize_transcript dbC10 7 reqC7).2.segments =
      [] ++ mkSegments 1 1 0 reqC7.segments ∧
    ∀ k, (mkSegments 1 1 0 reqC7.segments).get? k =
      (reqC7.segments.get? k).map (fun s =>
        ⟨1 + k, 1, s.start_ms, s.end_ms, s.text, k⟩) :=
  C7_finalize_full_text_and_sequence dbC10 7 reqC7
    ⟨7, 1, "tok7", none, "completed", 0, some 10, some (-100), none, none,
     none, none, none⟩ (by decide) (by decide) (by decide)

/-- Claim C10: UploadAudio and FinalizeTranscript take no bearer credential
and no access token — upload_recording and finalize_transcript have no
caller argument at all — and neither consults status or expires_at: for an
interview lacking the artifact they succeed under valid inputs, however
status and expires_at are set (the hypotheses below say nothing about
either field). -/
theorem C10_artifact_intake_ignores_auth_and_expiry (db : DB) (iid : Nat)
    (ivw : Interview) (file : UploadFile) (mime : Option String)
    (sr dur : Option Int) (req : TranscriptFinalizeRequest)
    (hiv : db.interviews.find? (fun i => i.id == iid) = some ivw)
    (hnr : db.recordings.find? (fun r => r.interview_id == iid) = none)
    (hmime : (pyTruthy (detected_mime mime file) &&
        !(strStartsWith ((detected_mime mime file).getD "") "audio/")) = false)
    (hnt : db.transcripts.find? (fun t => t.interview_id == iid) = none)
    (hne : req.segments.isEmpty = false) :
    (upload_recording db iid file mime sr dur true).result.isOk = true ∧
    (finalize_transcript db iid req).1.isOk = true := by
  constructor
  · unfold upload_recording
    simp only [hiv, hnr]
    rw [if_neg (by simp [hmime])]
    rfl
  · unfold finalize_transcript
    rw [if_neg (by simp [hne])]
    simp only [hiv, hnt]
    rfl

/-- Witness for C10 at a completed interview whose expires_at lies in the
past: both intakes still succeed. -/
theorem C10_witness :
    (upload_recording dbC10 7 ⟨some "a.wav", some "audio/wav", 4⟩ none none
        none true).result.isOk = true ∧
    (finalize_transcript dbC10 7 ⟨"en", "pipecat", [⟨0, 2, "hi"⟩]⟩).1.isOk =
      true :=
  C10_artifact_intake_ignores_auth_and_expiry dbC10 7
    ⟨7, 1, "tok7", none, "completed", 0, some 10, some (-100), none, none,
     none, none, none⟩ ⟨some "a.wav", some "audio/wav", 4⟩ none none none
    ⟨"en", "pipecat", [⟨0, 2, "hi"⟩]⟩ (by decide) (by decide) (by decide)
    (by decide) (by decide)

/-- Claim C3: redeeming a study's reusable slug link with an external pid
reuses the pending matching Interview's access_token with no state change
(so arbitrary replays keep returning that token and never add a row), and a
new Interview — with the pid set, the platform recorded and expires_at a
fixed 7 days (604800 seconds) forward — is created exactly when no
Interview with that pid exists for the study. -/
theorem C3_redeem_idempotent (db : DB) (slug : String) (p : String)
    (platform : Option String) (now : Int) (tok1 tok2 : String) (study : Study)
    (hs : db.studies.find? (fun s => s.slug == slug) = some study) :
    (∀ i, db.interviews.find? (fun j => j.study_id == study.id &&
          j.external_participant_id == some p) = some i →
        i.status = "pending" →
      redeemReusableLink db slug (some p) platform now tok1 =
          (.ok (.token i.access_token), db) ∧
      redeemReusableLink (redeemReusableLink db slug (some p) platform now
            tok1).2 slug (some p) platform now tok2 =
          (.ok (.token i.access_token), db)) ∧
    (db.interviews.find? (fun j => j.study_id == study.id &&
          j.external_participant_id == some p) = none →
      redeemReusableLink db slug (some p) platform now tok1 =
        (.ok (.token tok1),
         { db with interviews := db.interviews ++
             [⟨freshInterviewId db, study.id, tok1, none, "pending", now,
               none, some (now + 7 * 86400), some p, platform, none, none,
               none⟩] })) := by
  constructor
  · intro i hfind hpend
    have hgen : ∀ tk, redeemReusableLink db slug (some p) platform now tk =
        (.ok (.token i.access_token), db) := by
      intro tk
      unfold redeemReusableLink
      simp only [hs, hfind]
      rw [if_neg (by simp [hpend])]
    refine ⟨hgen tok1, ?_⟩
    rw [hgen tok1]
    exact hgen tok2
  · intro hnone
    unfold redeemReusableLink
    simp only [hs, hnone]

/-- Witness for C3: the concrete store redeems prolific_abc back to the
existing pending interview's token, twice, with no new row; a different pid
mints the expected new row. -/
theorem C3_witness :
    (redeemReusableLink dbC3 "mobile-banking" (some "prolific_abc")
        (some "prolific") 50 "fresh-tok" =
      (.ok (.token "tok-reused"), dbC3) ∧
     redeemReusableLink (redeemReusableLink dbC3 "mobile-banking"
          (some "prolific_abc") (some "prolific") 50 "fresh-tok").2
        "mobile-banking" (some "prolific_abc") (some "prolific") 50 "tok-b" =
      (.ok (.token "tok-reused"), dbC3)) ∧
    redeemReusableLink dbC3 "mobile-banking" (some "prolific_xyz")
        (some "prolific") 50 "fresh-tok" =
      (.ok (.token "fresh-tok"),
       { dbC3 with interviews := dbC3.interviews ++
           [⟨10, 3, "fresh-tok", none, "pending", 50, none, some 604850,
             some "prolific_xyz", some "prolific", none, none, none⟩] }) := by
  have h1 := (C3_redeem_idempotent dbC3 "mobile-banking" "prolific_abc"
      (some "prolific") 50 "fresh-tok" "tok-b"
      ⟨3, "Mobile Banking", none, "mobile-banking", 1⟩ (by decide)).1
    ⟨9, 3, "tok-reused", none, "pending", 0, none, some 604800,
     some "prolific_abc", some "prolific", none, none, none⟩
    (by decide) rfl
  have h2 := (C3_redeem_idempotent dbC3 "mobile-banking" "prolific_xyz"
      (some "prolific") 50 "fresh-tok" "fresh-tok"
      ⟨3, "Mobile Banking", none, "mobile-banking", 1⟩ (by decide)).2
    (by decide)
  exact ⟨h1, h2⟩

/-- Claim C9, counterexample: an upload with no mime form field and no file
content type resolves no mime type at all, yet the handler accepts it —
the recording row is committed and the object store written — where the
claim requires BadRequest "File must be an audio file" and no writes. -/
theorem C9_counterexample :
    (upload_recording dbC9 1 ⟨some "clip.bin", none, 4⟩ none none none
        true).result.isOk = true ∧
    (upload_recording dbC9 1 ⟨some "clip.bin", none, 4⟩ none none none
        true).db.recordings ≠ [] ∧
    (upload_recording dbC9 1 ⟨some "clip.bin", none, 4⟩ none none none
        true).store_writes ≠ [] := by
  decide

/-- Claim C9 as amended: only a truthy resolved mime type that does not
start with audio/ is rejected — with BadRequest "File must be an audio
file", the store unchanged and nothing written to the object store; when no
mime type resolves, the check is skipped and the upload proceeds. -/
theorem C9_mime_rejection (db : DB) (iid : Nat) (ivw : Interview)
    (file : UploadFile) (mime : Option String) (sr dur : Option Int)
    (store_ok : Bool)
    (hiv : db.interviews.find? (fun i => i.id == iid) = some ivw)
    (hnr : db.recordings.find? (fun r => r.interview_id == iid) = none)
    (htr : pyTruthy (detected_mime mime file) = true)
    (hst : strStartsWith ((detected_mime mime file).getD "") "audio/" = false) :
    upload_recording db iid file mime sr dur store_ok =
      ⟨.error ⟨400, "File must be an audio file"⟩, db, []⟩ := by
  unfold upload_recording
  simp only [hiv, hnr]
  rw [if_pos (by simp [htr, hst])]

/-- Witness for the amended C9: a video/mp4 upload is rejected with nothing
written. -/
theorem C9_witness :
    upload_recording dbC9 1 ⟨some "clip.mp4", some "video/mp4", 4⟩ none none
        none true =
      ⟨.error ⟨400, "File must be an audio file"⟩, dbC9, []⟩ :=
  C9_mime_rejection dbC9 1
    ⟨1, 1, "t1", none, "pending", 0, none, none, none, none, none, none, none⟩
    ⟨some "clip.mp4", some "video/mp4", 4⟩ none none none true (by decide)
    (by decide) (by decide) (by decide)

/-- Claim C1: GET /interview/{token} does not distinguish the three claimed
outcomes — the handler returns the same 404 "Interview not found or already
completed" both when no interview holds the token and when the interview is
completed, and it never consults expires_at: an expired pending interview
is served 200. -/
theorem C1_public_read_conflates_outcomes :
    get_interview_public dbC1 "tok-completed" =
      .error ⟨404, "Interview not found or already completed"⟩ ∧
    get_interview_public dbC1 "tok-missing" =
      .error ⟨404, "Interview not found or already completed"⟩ ∧
    (get_interview_public dbC1 "tok-expired").isOk = true := by
  decide

/-- Claim C2: a super admin is resolved by get_org_user_impl to the first
Organization row, so get_study/get_interview return 404 for the second
organization's study and interview even to a super admin; a first-org
member addressing them gets the same 404 "Study not found" (never 403). -/
theorem C2_cross_org_resolution :
    get_study_endpoint superAdminCaller dbC2 10 =
      .error ⟨404, "Study not found"⟩ ∧
    get_interview_endpoint superAdminCaller dbC2 10 55 =
      .error ⟨404, "Study not found"⟩ ∧
    get_study_endpoint orgACaller dbC2 10 = .error ⟨404, "Study not found"⟩ ∧
    get_interview_endpoint orgACaller dbC2 10 55 =
      .error ⟨404, "Study not found"⟩ := by
  decide

/-- Claim C8: when owner creation fails after the Organization row has been
committed, create_organization's rollback does not remove the committed
row — the store keeps an Organization with no User at all, which the claim
says must not persist. -/
theorem C8_org_without_owner_persists :
    (create_organization DB.empty ⟨"acme", "Acme", none, "owner@acme.com"⟩
        (.error "firebase unavailable")).1 =
      .error ⟨400, "Failed to create owner: firebase unavailable"⟩ ∧
    (create_organization DB.empty ⟨"acme", "Acme", none, "owner@acme.com"⟩
        (.error "firebase unavailable")).2.organizations =
      [⟨1, "acme", "Acme", none, none⟩] ∧
    (create_organization DB.empty ⟨"acme", "Acme", none, "owner@acme.com"⟩
        (.error "firebase unavailable")).2.users = [] := by
  decide

end Verity
